import Mathlib

/-!
Shallow embedding of the myLocalTTS hotkey utility (src/main.rs, src/audio.rs,
src/clipboard.rs, src/narrate.rs, src/transcribe.rs).

Rust strings are modelled as Lean `String` (a list of unicode scalar values,
as in Rust); the byte-level operations of `truncate_for_display` work on the
character list with `Char.utf8Size`. `f32` samples are modelled as exact
rationals. External processes are oracles: functions from the built command
line to an outcome, supplied as parameters.
-/

namespace LocalTTS

/-- Whitespace predicate used by the `trim` model; covers the whitespace
characters occurring in this program's data. -/
def isWs (c : Char) : Bool := c = ' ' || c = '\t' || c = '\n' || c = '\r'

/-- Model of Rust `str::trim`: drop leading and trailing whitespace. -/
def trimChars (cs : List Char) : List Char :=
  ((cs.dropWhile isWs).reverse.dropWhile isWs).reverse

/-- Rust `str::trim` lifted to `String`. -/
def strTrim (s : String) : String := ⟨trimChars s.data⟩

/-- Fuel-driven worker for `replaceChars`; the fuel starts at the length of
the subject list, which bounds the number of steps taken. Mirrors Rust
`str::replace`: left-to-right, non-overlapping occurrences of `pat` are
replaced by `rep`. -/
def replaceAux (pat rep : List Char) : Nat → List Char → List Char
  | 0, l => l
  | _ + 1, [] => []
  | fuel + 1, c :: cs =>
    if !pat.isEmpty && pat.isPrefixOf (c :: cs) then
      rep ++ replaceAux pat rep fuel ((c :: cs).drop pat.length)
    else
      c :: replaceAux pat rep fuel cs

/-- Model of Rust `str::replace` on character lists. -/
def replaceChars (cs pat rep : List Char) : List Char :=
  replaceAux pat rep cs.length cs

/-- UTF-8 byte length of a character list, as Rust `str::len`. -/
def byteLen (cs : List Char) : Nat := (cs.map Char.utf8Size).sum

/-- Model of the Rust byte slice `&text[..n]`: `some` prefix when `n` lands on
a character boundary inside the string, `none` when the slice would panic
(index past the end or not on a character boundary). -/
def takeBytes : List Char → Nat → Option (List Char)
  | _, 0 => some []
  | [], _ + 1 => none
  | c :: cs, n + 1 =>
    if c.utf8Size ≤ n + 1 then
      (takeBytes cs (n + 1 - c.utf8Size)).map (fun p => c :: p)
    else none

/-- Path join, abstracting `PathBuf::join`; the separator is written `/`. -/
def pathJoin (dir file : String) : String := dir ++ "/" ++ file

/-- One invocation of an external command: the program, its argument list,
and the data piped to its standard input, when any. -/
structure Invocation where
  program : String
  args : List String
  stdinData : Option String
  deriving DecidableEq

/-- Outcome of running a command to completion (`Command::output` style):
either the spawn fails, or the process completes with a success flag, an
optional exit code, and captured stdout and stderr. -/
inductive ProcOutcome where
  | spawnFail (msg : String)
  | completed (success : Bool) (code : Option Int) (stdout : String) (stderr : String)
  deriving DecidableEq

/-- A spawned child process handle, identified by its process id. -/
structure Child where
  id : Nat
  deriving DecidableEq

/-- Result of `Child::try_wait`: still running, exited with a status, or the
wait call itself failed. -/
inductive WaitStatus where
  | running
  | exited (code : Option Int)
  | waitFail
  deriving DecidableEq

/-! ## audio.rs -/

/-- The input device as the recorder sees it: `default_input_config()` either
fails (`none`) or reports a sample rate. -/
structure Device where
  configRate : Option Nat
  deriving DecidableEq

/-- State of `AudioRecorder`: whether a stream is live, the shared sample
buffer, the optional selected device, and the sample rate recorded at the
most recent successful `start` (initially 44100). -/
structure AudioRecorder where
  streaming : Bool
  buffer : List ℚ
  device : Option Device
  sample_rate : Nat
  deriving DecidableEq

/-- A fresh `AudioRecorder::new()`. -/
def AudioRecorder.new : AudioRecorder :=
  { streaming := false, buffer := [], device := none, sample_rate := 44100 }

/-- `AudioRecorder::start`: requires a selected device and its default input
config; records the device-reported sample rate, clears the buffer, and
starts a fresh stream. (The drop of any pre-existing stream on entry is
reflected by the caller setting `streaming := false` on the error paths.) -/
def AudioRecorder.start (r : AudioRecorder) : Except String AudioRecorder :=
  match r.device with
  | none => .error "No input device selected"
  | some d =>
    match d.configRate with
    | none => .error "default_input_config failed"
    | some rate =>
      .ok { r with streaming := true, sample_rate := rate, buffer := [] }

/-- The cpal input-stream callback: while the stream is live it appends the
incoming interleaved `f32` samples (modelled as rationals) to the shared
buffer; once the stream is dropped no more samples arrive. -/
def AudioRecorder.feed (r : AudioRecorder) (data : List ℚ) : AudioRecorder :=
  if r.streaming then { r with buffer := r.buffer ++ data } else r

/-- `AudioRecorder::stop`: drop the stream, then `mem::take` the buffer,
returning all buffered samples and leaving the buffer empty. -/
def AudioRecorder.stop (r : AudioRecorder) : List ℚ × AudioRecorder :=
  (r.buffer, { r with streaming := false, buffer := [] })

/-- WAV header fields written by `save_to_file` via `hound::WavSpec`. -/
structure WavSpec where
  channels : Nat
  sample_rate : Nat
  bits_per_sample : Nat
  sample_format_int : Bool
  deriving DecidableEq

/-- A written WAV file: its header and its i16 samples. -/
structure WavFile where
  spec : WavSpec
  samples : List Int
  deriving DecidableEq

/-- Truncation toward zero, the semantics of Rust `as i16` applied to a float
value already clamped into the i16 range. -/
def ratTruncToInt (q : ℚ) : Int := if q < 0 then ⌈q⌉ else ⌊q⌋

/-- Rust `f32::clamp(lo, hi)`: below `lo` gives `lo`, above `hi` gives `hi`,
otherwise the value itself. -/
def clampQ (x lo hi : ℚ) : ℚ := if x < lo then lo else if x > hi then hi else x

/-- The per-sample conversion in `save_to_file`:
`(sample * i16::MAX as f32).clamp(i16::MIN as f32, i16::MAX as f32) as i16`. -/
def f32ToI16 (sample : ℚ) : Int :=
  ratTruncToInt (clampQ (sample * 32767) (-32768) 32767)

/-- `AudioRecorder::save_to_file`: a one-channel, 16-bit integer WAV at the
recorder's current sample rate, one i16 sample per f32 input sample. The
write of the file itself is the `saveWav` effect in the event loop. -/
def AudioRecorder.save_to_file (r : AudioRecorder) (audio_data : List ℚ) : WavFile :=
  { spec := { channels := 1, sample_rate := r.sample_rate,
              bits_per_sample := 16, sample_format_int := true },
    samples := audio_data.map f32ToI16 }

/-! ## transcribe.rs -/

/-- `Transcriber`: the resolved whisper executable and model paths. -/
structure Transcriber where
  executable_path : String
  model_path : String
  deriving DecidableEq

/-- The literal passed to whisper via `--prompt`. -/
def whisperPrompt : String :=
  "Multilingual transcription. Transcrição multilíngue. English and Portuguese text. Texto em inglês e português."

/-- The exact command line built by `Transcriber::transcribe`. -/
def whisperInvocation (t : Transcriber) (current_dir audio_filename : String) : Invocation :=
  { program := t.executable_path,
    args := ["-m", t.model_path, "-f", pathJoin current_dir audio_filename,
             "--output-txt", "-nt", "-l", "auto", "--prompt", whisperPrompt],
    stdinData := none }

/-- Errors of `Transcriber::transcribe`: the spawn failed, or the process
exited unsuccessfully with the given exit code. -/
inductive TranscribeError where
  | execFailed (msg : String)
  | processFailed (code : Option Int)
  deriving DecidableEq

/-- The post-processing of whisper's stdout in `transcribe`: trim, strip the
artifact markers, trim again. -/
def cleanArtifacts (raw : String) : String :=
  ⟨trimChars (replaceChars (replaceChars (replaceChars (trimChars raw.data)
      "[BLANK_AUDIO]".data []) "[MÚSICA]".data []) "[MÚSICA DE FUNDO]".data [])⟩

/-- `Transcriber::transcribe`, with the subprocess supplied as the oracle
`exec`: run whisper on the joined audio path; `Ok` with the cleaned stdout on
success, `Err` on spawn failure or an unsuccessful exit status. -/
def Transcriber.transcribe (t : Transcriber) (exec : Invocation → ProcOutcome)
    (current_dir audio_filename : String) : Except TranscribeError String :=
  match exec (whisperInvocation t current_dir audio_filename) with
  | .spawnFail msg => .error (.execFailed msg)
  | .completed success code out _ =>
    if success then .ok (cleanArtifacts out)
    else .error (.processFailed code)

/-! ## Observable effects of the program on the outside world -/

/-- The externally visible actions the program performs. `pasteKeys` and
`copyKeys` stand for the simulated Ctrl+V and Ctrl+C key sequences sent via
enigo; `runPiper` covers the piper spawn, the stdin write and the wait;
`saveWav` is the write of the WAV file by `save_to_file`. -/
inductive Effect where
  | startRecording
  | stopRecording
  | saveWav (filename : String) (file : WavFile)
  | runWhisper (inv : Invocation)
  | setClipboard (text : String)
  | pasteKeys
  | copyKeys
  | narrKill (id : Nat)
  | narrWait (id : Nat)
  | runPiper (inv : Invocation)
  | spawnPlayer (inv : Invocation)
  | sleepMs (ms : Nat)
  deriving DecidableEq

/-! ## clipboard.rs -/

/-- `ClipboardManager::paste_text`: set the clipboard to the text, then send
Ctrl+V. Returns the new clipboard content and the emitted effects. -/
def paste_text (text : String) : String × List Effect :=
  (text, [.setClipboard text, .pasteKeys])

/-! ## narrate.rs -/

/-- Configuration of the piper TTS engine (`NarratorConfig`). -/
structure NarratorConfig where
  piper_path : String
  model_path : String
  speed : ℚ
  deriving DecidableEq

/-- `Narrator`: the configuration and the single tracked child handle. -/
structure Narrator where
  config : NarratorConfig
  current_process : Option Child
  deriving DecidableEq

/-- `Narrator::new`. -/
def Narrator.new (config : NarratorConfig) : Narrator :=
  { config, current_process := none }

/-- `Narrator::is_playing`: with a tracked child, ask `try_wait`; a running
child reports playing; an exited child, or a failed wait, clears the tracked
handle and reports not playing. Returns the answer and the updated state. -/
def Narrator.is_playing (n : Narrator) (tryWait : Nat → WaitStatus) : Bool × Narrator :=
  match n.current_process with
  | none => (false, n)
  | some child =>
    match tryWait child.id with
    | .running => (true, n)
    | .exited _ => (false, { n with current_process := none })
    | .waitFail => (false, { n with current_process := none })

/-- `Narrator::stop`: take the tracked handle; when present, kill the process
and wait on it. Always returns Ok, and always leaves no tracked handle. -/
def Narrator.stop (n : Narrator) : Narrator × List Effect :=
  match n.current_process with
  | none => ({ n with current_process := none }, [])
  | some child =>
    ({ n with current_process := none }, [.narrKill child.id, .narrWait child.id])

/-- Ambient facts `speak` needs about the platform: the temp directory, the
platform audio-player command (`afplay` on macOS, `aplay` otherwise), and
oracles for running piper to completion and for spawning the player. -/
structure SpeakWorld where
  tempDir : String
  playerCmd : String
  runPiper : Invocation → Except String Unit
  spawnPlayer : Invocation → Except String Child

/-- The piper command line built by `speak` (the non-Windows branch), with
the given text piped to its stdin. -/
def piperInvocation (cfg : NarratorConfig) (temp_audio text : String) : Invocation :=
  { program := cfg.piper_path,
    args := ["--model", cfg.model_path, "--output_file", temp_audio],
    stdinData := some text }

/-- The audio-player command line: the platform player run on the WAV file. -/
def playerInvocation (playerCmd temp_audio : String) : Invocation :=
  { program := playerCmd, args := [temp_audio], stdinData := none }

/-- `Narrator::speak`, following the `cfg(not(target_os = "windows"))` branch
of narrate.rs (the Windows branch differs only in extra piper flags and an
exit-status check on piper): reject blank text before touching any process;
otherwise stop any current playback, run piper with the text on stdin and
wait for it, then spawn the player on the produced WAV file and track its
handle. The `runPiper` effect is emitted whenever the spawn is attempted. -/
def Narrator.speak (n : Narrator) (w : SpeakWorld) (text : String) :
    Except String Unit × Narrator × List Effect :=
  if strTrim text = "" then (.error "No text to speak", n, [])
  else
    let n1 := (n.stop).1
    let stopEffs := (n.stop).2
    let temp_audio := pathJoin w.tempDir "tts_output.wav"
    let inv := piperInvocation n1.config temp_audio text
    match w.runPiper inv with
    | .error e => (.error e, n1, stopEffs ++ [.runPiper inv])
    | .ok _ =>
      let pinv := playerInvocation w.playerCmd temp_audio
      match w.spawnPlayer pinv with
      | .error e => (.error e, n1, stopEffs ++ [.runPiper inv, .spawnPlayer pinv])
      | .ok player =>
        (.ok (), { n1 with current_process := some player },
         stopEffs ++ [.runPiper inv, .spawnPlayer pinv])

/-! ## main.rs -/

/-- Model of `get_selected_text`: send Ctrl+C, after which the OS may have
replaced the clipboard with the copied selection (`copied`); then read the
clipboard. Returns the new clipboard content, the text read, and effects. -/
def get_selected_text (clipboard : String) (copied : Option String) :
    String × String × List Effect :=
  let newClip := match copied with | some s => s | none => clipboard
  (newClip, newClip, [.copyKeys])

/-- Model of `truncate_for_display` in main.rs: replace newlines by spaces,
remove carriage returns, and truncate at `max_len` bytes with a `...` suffix
when longer. The result is `none` exactly when the byte slice
`&text[..max_len]` taken in the else-branch panics in Rust (the index does
not fall on a character boundary). -/
def truncate_for_display (text : String) (max_len : Nat) : Option String :=
  let t := replaceChars (replaceChars text.data ['\n'] [' ']) ['\r'] []
  if byteLen t ≤ max_len then some ⟨t⟩
  else (takeBytes t max_len).map (fun p => ⟨p ++ ['.', '.', '.']⟩)

/-- Per-iteration environment of the hotkey loop: the sampled key states and
the oracles for this iteration's external interactions (`saveOk`: whether the
hound WAV write succeeds; `copied`: what the OS copy puts in the clipboard). -/
structure LoopEnv where
  isF9 : Bool
  isF10 : Bool
  current_dir : String
  saveOk : Bool
  whisperExec : Invocation → ProcOutcome
  copied : Option String
  tryWait : Nat → WaitStatus
  speakW : SpeakWorld

/-- Mutable state of `main`'s event loop: the two previous-key flags, the
recorder, the transcriber, the clipboard content, and the optional narrator. -/
structure LoopState where
  wasF9 : Bool
  wasF10 : Bool
  recorder : AudioRecorder
  transcriber : Transcriber
  clipboard : String
  narrator : Option Narrator

/-- The F9 (speech-to-text) block of the event loop (main.rs lines 101-141).
The Bool component records whether the block executed `continue` (empty
captured audio, or a failed WAV save), which skips the rest of the iteration. -/
def handleF9 (s : LoopState) (env : LoopEnv) : LoopState × List Effect × Bool :=
  if env.isF9 && !s.wasF9 then
    match s.recorder.start with
    | .ok r => ({ s with recorder := r }, [.startRecording], false)
    | .error _ =>
      ({ s with recorder := { s.recorder with streaming := false } },
       [.startRecording], false)
  else if !env.isF9 && s.wasF9 then
    let audio_data := (s.recorder.stop).1
    let s1 := { s with recorder := (s.recorder.stop).2 }
    if audio_data.isEmpty then (s1, [.stopRecording], true)
    else
      let wav := (s.recorder.stop).2.save_to_file audio_data
      if !env.saveOk then (s1, [.stopRecording, .saveWav "temp_input.wav" wav], true)
      else
        let inv := whisperInvocation s.transcriber env.current_dir "temp_input.wav"
        let effs := [Effect.stopRecording, .saveWav "temp_input.wav" wav, .runWhisper inv]
        match s.transcriber.transcribe env.whisperExec env.current_dir "temp_input.wav" with
        | .ok text =>
          if text = "" then (s1, effs, false)
          else ({ s1 with clipboard := (paste_text text).1 },
                effs ++ (paste_text text).2, false)
        | .error _ => (s1, effs, false)
  else (s, [], false)

/-- The F10 (text-to-speech) block of the event loop (main.rs lines 144-171). -/
def handleF10 (s : LoopState) (env : LoopEnv) : LoopState × List Effect :=
  if env.isF10 && !s.wasF10 then
    match s.narrator with
    | none => (s, [])
    | some n =>
      let playing := (n.is_playing env.tryWait).1
      let n1 := (n.is_playing env.tryWait).2
      if playing then
        ({ s with narrator := some (n1.stop).1 }, (n1.stop).2)
      else
        let clip := (get_selected_text s.clipboard env.copied).1
        let text := (get_selected_text s.clipboard env.copied).2.1
        let cEffs := (get_selected_text s.clipboard env.copied).2.2
        let s1 := { s with clipboard := clip, narrator := some n1 }
        if strTrim text = "" then (s1, cEffs)
        else
          ({ s1 with narrator := some (n1.speak env.speakW text).2.1 },
           cEffs ++ (n1.speak env.speakW text).2.2)
  else (s, [])

/-- One full iteration of the event loop (main.rs lines 96-176): the F9
block, then — unless the F9 block hit `continue` — the F10 block, the two
previous-state updates and the 20 ms sleep. On `continue` only
`was_f9_pressed` has been updated, and neither the F10 block nor the sleep
runs. -/
def loopIter (s : LoopState) (env : LoopEnv) : LoopState × List Effect :=
  let h := handleF9 s env
  if h.2.2 then ({ h.1 with wasF9 := env.isF9 }, h.2.1)
  else
    let g := handleF10 h.1 env
    ({ g.1 with wasF9 := env.isF9, wasF10 := env.isF10 },
     h.2.1 ++ g.2 ++ [.sleepMs 20])

/-- Whether the F9 block of this iteration hits `continue`. -/
def f9Continues (s : LoopState) (env : LoopEnv) : Bool :=
  (handleF9 s env).2.2

/-- The F10 trigger of the loop: the guard `is_f10_pressed &&
!was_f10_pressed`, which is only reached when the iteration was not cut short
by the F9 block. -/
def f10Fired (s : LoopState) (env : LoopEnv) : Bool :=
  !f9Continues s env && (env.isF10 && !s.wasF10)

/-- The F9 trigger of the loop: a press or release edge with respect to the
stored `was_f9_pressed` flag. -/
def f9Edge (s : LoopState) (env : LoopEnv) : Bool :=
  env.isF9 != s.wasF9

/-- A recording session: the recorder after `start`, fed the sample batches
delivered by the stream callback, in order. -/
def applyFeeds (r : AudioRecorder) (fs : List (List ℚ)) : AudioRecorder :=
  fs.foldl AudioRecorder.feed r

/-! ## Supporting lemmas -/

lemma applyFeeds_buffer (fs : List (List ℚ)) (r : AudioRecorder)
    (h : r.streaming = true) :
    (applyFeeds r fs).buffer = r.buffer ++ fs.flatten ∧
      (applyFeeds r fs).streaming = true := by
  induction fs generalizing r with
  | nil => simp [applyFeeds, h]
  | cons a as ih =>
    have hs : (r.feed a).streaming = true := by simp [AudioRecorder.feed, h]
    have h2 := ih (r.feed a) hs
    refine ⟨?_, ?_⟩
    · have : (applyFeeds (r.feed a) as).buffer = (r.feed a).buffer ++ as.flatten := h2.1
      simp only [applyFeeds, List.foldl_cons] at *
      rw [this]
      simp [AudioRecorder.feed, h, List.append_assoc]
    · simpa only [applyFeeds, List.foldl_cons] using h2.2

lemma clampQ_eq_max_min (x : ℚ) :
    clampQ x (-32768) 32767 = max (-32768) (min x 32767) := by
  unfold clampQ
  split_ifs with h1 h2
  · rw [max_eq_left]
    exact le_trans (min_le_left _ _) (le_of_lt h1)
  · rw [min_eq_right (le_of_lt h2), max_eq_right]
    norm_num
  · rw [min_eq_left (not_lt.mp h2), max_eq_right (not_lt.mp h1)]

lemma ratTruncToInt_bounds (q : ℚ) (h1 : -32768 ≤ q) (h2 : q ≤ 32767) :
    -32768 ≤ ratTruncToInt q ∧ ratTruncToInt q ≤ 32767 := by
  unfold ratTruncToInt
  split_ifs with h
  · constructor
    · have h4 : (-32768 : ℚ) ≤ (⌈q⌉ : ℚ) := le_trans h1 (Int.le_ceil q)
      exact_mod_cast h4
    · have h5 : ⌈q⌉ ≤ 0 := Int.ceil_le.mpr (by exact_mod_cast le_of_lt h)
      omega
  · constructor
    · have h6 : 0 ≤ ⌊q⌋ := Int.floor_nonneg.mpr (not_lt.mp h)
      omega
    · have h7 : (⌊q⌋ : ℚ) ≤ 32767 := le_trans (Int.floor_le q) h2
      exact_mod_cast h7

lemma handleF9_preserves (s : LoopState) (env : LoopEnv) :
    (handleF9 s env).1.wasF9 = s.wasF9 ∧ (handleF9 s env).1.wasF10 = s.wasF10 ∧
    (handleF9 s env).1.narrator = s.narrator ∧
    (handleF9 s env).1.transcriber = s.transcriber := by
  simp only [handleF9]
  repeat' split
  all_goals exact ⟨rfl, rfl, rfl, rfl⟩

lemma handleF10_preserves (s : LoopState) (env : LoopEnv) :
    (handleF10 s env).1.recorder = s.recorder ∧
    (handleF10 s env).1.wasF9 = s.wasF9 ∧
    (handleF10 s env).1.wasF10 = s.wasF10 ∧
    (handleF10 s env).1.transcriber = s.transcriber := by
  simp only [handleF10]
  repeat' split
  all_goals exact ⟨rfl, rfl, rfl, rfl⟩

lemma mem_stop_effects (n : Narrator) (e : Effect) (he : e ∈ (n.stop).2) :
    ∃ i, e = .narrKill i ∨ e = .narrWait i := by
  cases h : n.current_process with
  | none => simp [Narrator.stop, h] at he
  | some c =>
    simp [Narrator.stop, h] at he
    rcases he with rfl | rfl
    · exact ⟨c.id, Or.inl rfl⟩
    · exact ⟨c.id, Or.inr rfl⟩

lemma mem_speak_effects (n : Narrator) (w : SpeakWorld) (text : String) (e : Effect)
    (he : e ∈ (n.speak w text).2.2) :
    (∃ i, e = .narrKill i ∨ e = .narrWait i) ∨ (∃ inv, e = .runPiper inv) ∨
    (∃ inv, e = .spawnPlayer inv) := by
  simp only [Narrator.speak] at he
  split at he
  · simp at he
  · split at he
    · rw [List.mem_append] at he
      rcases he with h1 | h2
      · exact Or.inl (mem_stop_effects n e h1)
      · simp at h2
        subst h2
        exact Or.inr (Or.inl ⟨_, rfl⟩)
    · split at he
      all_goals rw [List.mem_append] at he
      all_goals rcases he with h1 | h2
      · exact Or.inl (mem_stop_effects n e h1)
      · rcases List.mem_cons.mp h2 with rfl | h3
        · exact Or.inr (Or.inl ⟨_, rfl⟩)
        · simp at h3
          subst h3
          exact Or.inr (Or.inr ⟨_, rfl⟩)
      · exact Or.inl (mem_stop_effects n e h1)
      · rcases List.mem_cons.mp h2 with rfl | h3
        · exact Or.inr (Or.inl ⟨_, rfl⟩)
        · simp at h3
          subst h3
          exact Or.inr (Or.inr ⟨_, rfl⟩)

lemma handleF9_effects_shape (s : LoopState) (env : LoopEnv) :
    (∀ inv, Effect.runPiper inv ∉ (handleF9 s env).2.1) ∧
    (∀ i, Effect.narrKill i ∉ (handleF9 s env).2.1) ∧
    Effect.sleepMs 20 ∉ (handleF9 s env).2.1 ∧
    Effect.copyKeys ∉ (handleF9 s env).2.1 := by
  simp only [handleF9]
  repeat' split
  all_goals simp [paste_text]

lemma mem_handleF10_cases (s : LoopState) (env : LoopEnv) (e : Effect)
    (he : e ∈ (handleF10 s env).2) :
    e = .copyKeys ∨ (∃ i, e = .narrKill i ∨ e = .narrWait i) ∨
    (∃ inv, e = .runPiper inv) ∨ (∃ inv, e = .spawnPlayer inv) := by
  simp only [handleF10] at he
  split at he
  · split at he
    · simp at he
    · split at he
      · exact Or.inr (Or.inl (mem_stop_effects _ e he))
      · split at he
        · simp [get_selected_text] at he
          exact Or.inl he
        · rw [List.mem_append] at he
          rcases he with h1 | h2
          · simp [get_selected_text] at h1
            exact Or.inl h1
          · exact Or.inr (mem_speak_effects _ _ _ e h2)
  · simp at he

lemma handleF10_effects_shape (s : LoopState) (env : LoopEnv) :
    (∀ t, Effect.setClipboard t ∉ (handleF10 s env).2) ∧
    Effect.pasteKeys ∉ (handleF10 s env).2 ∧
    Effect.sleepMs 20 ∉ (handleF10 s env).2 := by
  refine ⟨?_, ?_, ?_⟩
  · intro t hmem
    rcases mem_handleF10_cases s env _ hmem with h | ⟨i, h | h⟩ | ⟨inv, h⟩ | ⟨inv, h⟩ <;>
      exact Effect.noConfusion h
  · intro hmem
    rcases mem_handleF10_cases s env _ hmem with h | ⟨i, h | h⟩ | ⟨inv, h⟩ | ⟨inv, h⟩ <;>
      exact Effect.noConfusion h
  · intro hmem
    rcases mem_handleF10_cases s env _ hmem with h | ⟨i, h | h⟩ | ⟨inv, h⟩ | ⟨inv, h⟩ <;>
      exact Effect.noConfusion h

lemma loopIter_recorder (s : LoopState) (env : LoopEnv) :
    (loopIter s env).1.recorder = (handleF9 s env).1.recorder := by
  simp only [loopIter]
  split
  · rfl
  · exact (handleF10_preserves (handleF9 s env).1 env).1

lemma mem_loopIter_of_f9 (s : LoopState) (env : LoopEnv) (e : Effect)
    (he : e ∈ (handleF9 s env).2.1) : e ∈ (loopIter s env).2 := by
  simp only [loopIter]
  split
  · exact he
  · simp [he]

lemma is_playing_true_eq (n : Narrator) (t : Nat → WaitStatus)
    (h : (n.is_playing t).1 = true) :
    (n.is_playing t).2 = n ∧ ∃ c, n.current_process = some c ∧ t c.id = .running := by
  cases hc : n.current_process with
  | none => simp [Narrator.is_playing, hc] at h
  | some c =>
    cases hw : t c.id with
    | running => simp [Narrator.is_playing, hc, hw]
    | exited code => simp [Narrator.is_playing, hc, hw] at h
    | waitFail => simp [Narrator.is_playing, hc, hw] at h

lemma is_playing_snd_config (n : Narrator) (t : Nat → WaitStatus) :
    ((n.is_playing t).2).config = n.config := by
  cases hc : n.current_process with
  | none => simp [Narrator.is_playing, hc]
  | some c => cases hw : t c.id <;> simp [Narrator.is_playing, hc, hw]

lemma speak_runPiper_mem (n : Narrator) (w : SpeakWorld) (text : String)
    (ht : strTrim text ≠ "") :
    Effect.runPiper (piperInvocation n.config (pathJoin w.tempDir "tts_output.wav") text)
      ∈ (n.speak w text).2.2 := by
  have hcfg : (n.stop).1.config = n.config := by
    cases h : n.current_process <;> simp [Narrator.stop, h]
  simp only [Narrator.speak, if_neg ht, hcfg]
  cases hrp : w.runPiper
      (piperInvocation n.config (pathJoin w.tempDir "tts_output.wav") text) with
  | error e => simp
  | ok u =>
    cases hsp : w.spawnPlayer
        (playerInvocation w.playerCmd (pathJoin w.tempDir "tts_output.wav")) <;> simp

lemma loopIter_split (s : LoopState) (env : LoopEnv)
    (hcont : (handleF9 s env).2.2 = false) :
    (loopIter s env).1.narrator = (handleF10 (handleF9 s env).1 env).1.narrator ∧
    (loopIter s env).2
      = (handleF9 s env).2.1 ++ (handleF10 (handleF9 s env).1 env).2
        ++ [.sleepMs 20] := by
  simp [loopIter, hcont]

/-! ## Claim theorems -/

/-- C3: `Transcriber::transcribe` invokes the whisper executable with the
model path after `-m` and the joined WAV path after `-f`; it returns `Ok`
with the cleaned stdout text exactly when the subprocess completes
successfully, and `Err` exactly when the spawn fails or the exit status is
unsuccessful, propagating the exit code in the unsuccessful-status error. -/
theorem transcribe_correct (t : Transcriber) (exec : Invocation → ProcOutcome)
    (dir f : String) :
    (whisperInvocation t dir f).program = t.executable_path ∧
    (whisperInvocation t dir f).args.take 4
      = ["-m", t.model_path, "-f", pathJoin dir f] ∧
    (∀ c out err, exec (whisperInvocation t dir f) = .completed true c out err →
      t.transcribe exec dir f = .ok (cleanArtifacts out)) ∧
    (∀ c out err, exec (whisperInvocation t dir f) = .completed false c out err →
      t.transcribe exec dir f = .error (.processFailed c)) ∧
    (∀ m, exec (whisperInvocation t dir f) = .spawnFail m →
      t.transcribe exec dir f = .error (.execFailed m)) ∧
    ((∃ e, t.transcribe exec dir f = .error e) ↔
      (∃ m, exec (whisperInvocation t dir f) = .spawnFail m) ∨
      (∃ c out err, exec (whisperInvocation t dir f) = .completed false c out err)) := by
  refine ⟨rfl, rfl, ?_, ?_, ?_, ?_⟩
  · intro c out err h
    simp [Transcriber.transcribe, h]
  · intro c out err h
    simp [Transcriber.transcribe, h]
  · intro m h
    simp [Transcriber.transcribe, h]
  · cases hx : exec (whisperInvocation t dir f) with
    | spawnFail m => simp [Transcriber.transcribe, hx]
    | completed succ c out err =>
      cases succ <;> simp [Transcriber.transcribe, hx]

/-- Witness for C3: a concrete successful whisper run yields the cleaned
stdout text. -/
theorem transcribe_correct_witness :
    (Transcriber.mk "whisper-cli.exe" "ggml-large-v3-turbo.bin").transcribe
      (fun _ => .completed true (some 0) " hello " "") "." "temp_input.wav"
      = .ok "hello" := by
  have h := (transcribe_correct (Transcriber.mk "whisper-cli.exe" "ggml-large-v3-turbo.bin")
    (fun _ => .completed true (some 0) " hello " "") "." "temp_input.wav").2.2.1
    (some 0) " hello " "" rfl
  rw [show cleanArtifacts " hello " = "hello" from by decide] at h
  exact h

/-- C4: `save_to_file` writes a one-channel, 16-bit integer WAV at the sample
rate recorded by the most recent successful `start`, containing exactly one
i16 sample per f32 sample, each obtained by scaling by 32767 and clamping to
the i16 range (with the truncation toward zero of the `as i16` cast). -/
theorem save_to_file_correct (r : AudioRecorder) (audio_data : List ℚ) :
    (r.save_to_file audio_data).spec.channels = 1 ∧
    (r.save_to_file audio_data).spec.bits_per_sample = 16 ∧
    (r.save_to_file audio_data).spec.sample_format_int = true ∧
    (r.save_to_file audio_data).spec.sample_rate = r.sample_rate ∧
    (r.save_to_file audio_data).samples.length = audio_data.length ∧
    (r.save_to_file audio_data).samples
      = audio_data.map (fun x => ratTruncToInt (max (-32768) (min (x * 32767) 32767))) ∧
    (∀ s ∈ (r.save_to_file audio_data).samples, -32768 ≤ s ∧ s ≤ 32767) ∧
    (∀ d rate r2, r.device = some d → d.configRate = some rate →
      r.start = .ok r2 → r2.sample_rate = rate) := by
  refine ⟨rfl, rfl, rfl, rfl, by simp [AudioRecorder.save_to_file], ?_, ?_, ?_⟩
  · simp only [AudioRecorder.save_to_file]
    apply List.map_congr_left
    intro x _
    rw [f32ToI16, clampQ_eq_max_min]
  · intro s hs
    simp only [AudioRecorder.save_to_file, List.mem_map] at hs
    obtain ⟨x, _, rfl⟩ := hs
    rw [f32ToI16, clampQ_eq_max_min]
    apply ratTruncToInt_bounds
    · exact le_max_left _ _
    · exact max_le (by norm_num) (min_le_right _ _)
  · intro d rate r2 hd hc h
    simp [AudioRecorder.start, hd, hc] at h
    subst h
    rfl

/-- Witness for C4: a concrete recorder whose start records the device rate,
applied to an empty sample list. -/
theorem save_to_file_correct_witness :
    ((AudioRecorder.mk false [] (some ⟨some 48000⟩) 44100).save_to_file
        []).spec.sample_rate = 44100 ∧
    (∀ r2, (AudioRecorder.mk false [] (some ⟨some 48000⟩) 44100).start = .ok r2 →
      r2.sample_rate = 48000) := by
  have h := save_to_file_correct (AudioRecorder.mk false [] (some ⟨some 48000⟩) 44100) []
  exact ⟨h.2.2.2.1, fun r2 hr => h.2.2.2.2.2.2.2 ⟨some 48000⟩ 48000 r2 rfl rfl hr⟩

/-- C5: the narrator tracks at most one child handle: `stop` kills and waits
on the tracked process when present and always clears the handle; a positive
`is_playing` means the tracked process is still running and leaves the state
alone, while an exited (or unwaitable) process clears the handle; `speak` on
non-blank text first emits the kill/wait of the previously tracked process
and, when piper and the player both succeed, stores exactly the new player
handle. -/
theorem narrator_single_handle (n : Narrator) (w : SpeakWorld)
    (tryWait : Nat → WaitStatus) (text : String) :
    ((n.stop).1.current_process = none) ∧
    (∀ c, n.current_process = some c →
      (n.stop).2 = [.narrKill c.id, .narrWait c.id]) ∧
    (n.current_process = none → (n.stop).2 = []) ∧
    ((n.is_playing tryWait).1 = true →
      (n.is_playing tryWait).2 = n ∧
      ∃ c, n.current_process = some c ∧ tryWait c.id = .running) ∧
    (∀ c, n.current_process = some c → tryWait c.id ≠ .running →
      (n.is_playing tryWait).1 = false ∧
      (n.is_playing tryWait).2.current_process = none) ∧
    (n.current_process = none → (n.is_playing tryWait).1 = false) ∧
    (strTrim text ≠ "" →
      (∀ c, n.current_process = some c →
        (n.speak w text).2.2.take 2 = [.narrKill c.id, .narrWait c.id]) ∧
      (∀ p, w.runPiper (piperInvocation n.config
              (pathJoin w.tempDir "tts_output.wav") text) = .ok () →
        w.spawnPlayer (playerInvocation w.playerCmd
              (pathJoin w.tempDir "tts_output.wav")) = .ok p →
        (n.speak w text).2.1.current_process = some p)) := by
  refine ⟨?_, ?_, ?_, ?_, ?_, ?_, ?_⟩
  · cases h : n.current_process <;> simp [Narrator.stop, h]
  · intro c h
    simp [Narrator.stop, h]
  · intro h
    simp [Narrator.stop, h]
  · intro h
    cases hc : n.current_process with
    | none => simp [Narrator.is_playing, hc] at h
    | some c =>
      cases hw : tryWait c.id with
      | running => simp [Narrator.is_playing, hc, hw]
      | exited code => simp [Narrator.is_playing, hc, hw] at h
      | waitFail => simp [Narrator.is_playing, hc, hw] at h
  · intro c hc hw
    cases hws : tryWait c.id with
    | running => exact absurd hws hw
    | exited code => simp [Narrator.is_playing, hc, hws]
    | waitFail => simp [Narrator.is_playing, hc, hws]
  · intro h
    simp [Narrator.is_playing, h]
  · intro ht
    constructor
    · intro c hc
      rw [Narrator.speak, if_neg ht]
      have hstop : (n.stop).2 = [.narrKill c.id, .narrWait c.id] := by
        simp [Narrator.stop, hc]
      have hcfg : (n.stop).1.config = n.config := by
        cases h : n.current_process <;> simp [Narrator.stop, h]
      cases hrp : w.runPiper (piperInvocation (n.stop).1.config
          (pathJoin w.tempDir "tts_output.wav") text) with
      | error e => simp [hrp, hstop]
      | ok u =>
        cases hsp : w.spawnPlayer (playerInvocation w.playerCmd
            (pathJoin w.tempDir "tts_output.wav")) with
        | error e => simp [hrp, hsp, hstop]
        | ok p => simp [hrp, hsp, hstop]
    · intro p hrp hsp
      have hcfg : (n.stop).1.config = n.config := by
        cases h : n.current_process <;> simp [Narrator.stop, h]
      simp only [Narrator.speak, if_neg ht, hcfg]
      simp only [hrp, hsp]

/-- Witness for C5: a concrete narrator with a tracked child; `speak` on
non-blank text stores exactly the newly spawned player handle. -/
theorem narrator_single_handle_witness :
    ((Narrator.mk ⟨"piper", "voice.onnx", 1⟩ (some ⟨3⟩)).speak
        ⟨"/tmp", "aplay", fun _ => .ok (), fun _ => .ok ⟨9⟩⟩ "hi").2.1.current_process
      = some ⟨9⟩ :=
  ((narrator_single_handle (Narrator.mk ⟨"piper", "voice.onnx", 1⟩ (some ⟨3⟩))
      ⟨"/tmp", "aplay", fun _ => .ok (), fun _ => .ok ⟨9⟩⟩ (fun _ => .running)
      "hi").2.2.2.2.2.2 (by decide)).2 ⟨9⟩ rfl rfl

/-- C1: on an F9 press edge the loop starts recording (and on a successful
start the recorder is exactly the started one); on an F9 release edge it
stops recording, and — when samples were captured, the WAV save succeeds,
and whisper completes successfully with non-empty cleaned text — it saves
the WAV file, runs whisper on it, sets the clipboard to the transcribed text
and sends the paste keystroke. -/
theorem stt_hotkey_pipeline (s : LoopState) (env : LoopEnv) :
    (env.isF9 = true → s.wasF9 = false →
      Effect.startRecording ∈ (loopIter s env).2 ∧
      (∀ r2, s.recorder.start = .ok r2 → (loopIter s env).1.recorder = r2)) ∧
    (env.isF9 = false → s.wasF9 = true →
      Effect.stopRecording ∈ (loopIter s env).2 ∧
      (loopIter s env).1.recorder.streaming = false ∧
      (loopIter s env).1.recorder.buffer = [] ∧
      (s.recorder.buffer ≠ [] → env.saveOk = true →
        Effect.saveWav "temp_input.wav"
            ((s.recorder.stop).2.save_to_file s.recorder.buffer) ∈ (loopIter s env).2 ∧
        Effect.runWhisper (whisperInvocation s.transcriber env.current_dir "temp_input.wav")
            ∈ (loopIter s env).2 ∧
        (∀ c out err,
          env.whisperExec (whisperInvocation s.transcriber env.current_dir "temp_input.wav")
            = .completed true c out err →
          cleanArtifacts out ≠ "" →
          Effect.setClipboard (cleanArtifacts out) ∈ (loopIter s env).2 ∧
          Effect.pasteKeys ∈ (loopIter s env).2))) := by
  constructor
  · intro h9 hw9
    cases hst : s.recorder.start with
    | ok r2 =>
      have hh : handleF9 s env = ({ s with recorder := r2 }, [.startRecording], false) := by
        simp [handleF9, h9, hw9, hst]
      refine ⟨mem_loopIter_of_f9 s env _ (by simp [hh]), ?_⟩
      intro r3 hst2
      have hr : r2 = r3 := Except.ok.inj hst2
      subst hr
      rw [loopIter_recorder, hh]
    | error msg =>
      have hh : handleF9 s env
          = ({ s with recorder := { s.recorder with streaming := false } },
             [.startRecording], false) := by
        simp [handleF9, h9, hw9, hst]
      refine ⟨mem_loopIter_of_f9 s env _ (by simp [hh]), ?_⟩
      intro r3 hst2
      exact Except.noConfusion hst2
  · intro h9 hw9
    cases hb : s.recorder.buffer with
    | nil =>
      have hh : handleF9 s env
          = ({ s with recorder := (s.recorder.stop).2 }, [.stopRecording], true) := by
        simp [handleF9, h9, hw9, AudioRecorder.stop, hb]
      refine ⟨mem_loopIter_of_f9 s env _ (by simp [hh]), ?_, ?_, ?_⟩
      · simp [loopIter_recorder, hh, AudioRecorder.stop]
      · simp [loopIter_recorder, hh, AudioRecorder.stop]
      · intro habs _
        exact absurd rfl habs
    | cons x xs =>
      cases hsave : env.saveOk with
      | false =>
        have hh : handleF9 s env
            = ({ s with recorder := (s.recorder.stop).2 },
               [.stopRecording,
                .saveWav "temp_input.wav" ((s.recorder.stop).2.save_to_file (x :: xs))],
               true) := by
          simp [handleF9, h9, hw9, AudioRecorder.stop, hb, hsave]
        refine ⟨mem_loopIter_of_f9 s env _ (by simp [hh]),
          by simp [loopIter_recorder, hh, AudioRecorder.stop], by simp [loopIter_recorder, hh, AudioRecorder.stop], ?_⟩
        intro _ hsave2
        exact Bool.noConfusion hsave2
      | true =>
        cases hex : env.whisperExec
            (whisperInvocation s.transcriber env.current_dir "temp_input.wav") with
        | spawnFail msg =>
          have hh : handleF9 s env
              = ({ s with recorder := (s.recorder.stop).2 },
                 [.stopRecording,
                  .saveWav "temp_input.wav" ((s.recorder.stop).2.save_to_file (x :: xs)),
                  .runWhisper (whisperInvocation s.transcriber env.current_dir "temp_input.wav")],
                 false) := by
            simp [handleF9, h9, hw9, AudioRecorder.stop, hb, hsave,
              Transcriber.transcribe, hex]
          refine ⟨mem_loopIter_of_f9 s env _ (by simp [hh]),
            by simp [loopIter_recorder, hh, AudioRecorder.stop], by simp [loopIter_recorder, hh, AudioRecorder.stop], ?_⟩
          intro _ _
          refine ⟨mem_loopIter_of_f9 s env _ (by simp [hh]),
            mem_loopIter_of_f9 s env _ (by simp [hh]), ?_⟩
          intro c2 out2 err2 hex2
          exact ProcOutcome.noConfusion hex2
        | completed succ c out err =>
          cases succ with
          | false =>
            have hh : handleF9 s env
                = ({ s with recorder := (s.recorder.stop).2 },
                   [.stopRecording,
                    .saveWav "temp_input.wav" ((s.recorder.stop).2.save_to_file (x :: xs)),
                    .runWhisper (whisperInvocation s.transcriber env.current_dir "temp_input.wav")],
                   false) := by
              simp [handleF9, h9, hw9, AudioRecorder.stop, hb, hsave,
                Transcriber.transcribe, hex]
            refine ⟨mem_loopIter_of_f9 s env _ (by simp [hh]),
              by simp [loopIter_recorder, hh, AudioRecorder.stop], by simp [loopIter_recorder, hh, AudioRecorder.stop], ?_⟩
            intro _ _
            refine ⟨mem_loopIter_of_f9 s env _ (by simp [hh]),
              mem_loopIter_of_f9 s env _ (by simp [hh]), ?_⟩
            intro c2 out2 err2 hex2
            injection hex2 with h6 _ _ _
            exact Bool.noConfusion h6
          | true =>
            by_cases hcl : cleanArtifacts out = ""
            · have hh : handleF9 s env
                  = ({ s with recorder := (s.recorder.stop).2 },
                     [.stopRecording,
                      .saveWav "temp_input.wav" ((s.recorder.stop).2.save_to_file (x :: xs)),
                      .runWhisper (whisperInvocation s.transcriber env.current_dir "temp_input.wav")],
                     false) := by
                simp [handleF9, h9, hw9, AudioRecorder.stop, hb, hsave,
                  Transcriber.transcribe, hex, hcl]
              refine ⟨mem_loopIter_of_f9 s env _ (by simp [hh]),
                by simp [loopIter_recorder, hh, AudioRecorder.stop], by simp [loopIter_recorder, hh, AudioRecorder.stop], ?_⟩
              intro _ _
              refine ⟨mem_loopIter_of_f9 s env _ (by simp [hh]),
                mem_loopIter_of_f9 s env _ (by simp [hh]), ?_⟩
              intro c2 out2 err2 hex2 hcl2
              injection hex2 with _ _ h6 _
              subst h6
              exact absurd hcl hcl2
            · have hh : handleF9 s env
                  = ({ s with recorder := (s.recorder.stop).2, clipboard := cleanArtifacts out },
                     [.stopRecording,
                      .saveWav "temp_input.wav" ((s.recorder.stop).2.save_to_file (x :: xs)),
                      .runWhisper (whisperInvocation s.transcriber env.current_dir "temp_input.wav"),
                      .setClipboard (cleanArtifacts out), .pasteKeys],
                     false) := by
                simp [handleF9, h9, hw9, AudioRecorder.stop, hb, hsave,
                  Transcriber.transcribe, hex, hcl, paste_text]
              refine ⟨mem_loopIter_of_f9 s env _ (by simp [hh]),
                by simp [loopIter_recorder, hh, AudioRecorder.stop], by simp [loopIter_recorder, hh, AudioRecorder.stop], ?_⟩
              intro _ _
              refine ⟨mem_loopIter_of_f9 s env _ (by simp [hh]),
                mem_loopIter_of_f9 s env _ (by simp [hh]), ?_⟩
              intro c2 out2 err2 hex2 _
              injection hex2 with _ _ h6 _
              subst h6
              exact ⟨mem_loopIter_of_f9 s env _ (by simp [hh]),
                mem_loopIter_of_f9 s env _ (by simp [hh])⟩

/-- Witness for C1: a concrete release edge with one captured sample, a
successful save and a successful whisper run puts the transcription on the
clipboard and sends the paste keystroke. -/
theorem stt_hotkey_pipeline_witness :
    Effect.setClipboard (cleanArtifacts "ok") ∈
      (loopIter
        (LoopState.mk true false (AudioRecorder.mk true [0] (some ⟨some 16000⟩) 16000)
          (Transcriber.mk "whisper-cli.exe" "ggml-large-v3-turbo.bin") "" none)
        (LoopEnv.mk false false "." true (fun _ => .completed true (some 0) "ok" "")
          none (fun _ => .running)
          ⟨"/tmp", "aplay", fun _ => .ok (), fun _ => .ok ⟨2⟩⟩)).2 :=
  (((stt_hotkey_pipeline
      (LoopState.mk true false (AudioRecorder.mk true [0] (some ⟨some 16000⟩) 16000)
        (Transcriber.mk "whisper-cli.exe" "ggml-large-v3-turbo.bin") "" none)
      (LoopEnv.mk false false "." true (fun _ => .completed true (some 0) "ok" "")
        none (fun _ => .running)
        ⟨"/tmp", "aplay", fun _ => .ok (), fun _ => .ok ⟨2⟩⟩)).2
    rfl rfl).2.2.2 (by decide) rfl).2.2 (some 0) "ok" "" rfl (by decide) |>.1

/-- C9: on an F9 release edge with no captured samples, or with an empty
transcription result, `paste_text` is never called: no clipboard write and no
paste keystroke appear among the iteration's effects, and the F9 block leaves
the clipboard untouched. -/
theorem stt_empty_no_paste (s : LoopState) (env : LoopEnv) :
    env.isF9 = false → s.wasF9 = true →
    (s.recorder.buffer = [] ∨
      (∃ c out err,
        env.whisperExec (whisperInvocation s.transcriber env.current_dir "temp_input.wav")
          = .completed true c out err ∧ cleanArtifacts out = "")) →
    (∀ t, Effect.setClipboard t ∉ (loopIter s env).2) ∧
    Effect.pasteKeys ∉ (loopIter s env).2 ∧
    (handleF9 s env).1.clipboard = s.clipboard := by
  intro h9 hw9 hdisj
  have main : (∀ t, Effect.setClipboard t ∉ (handleF9 s env).2.1) ∧
      Effect.pasteKeys ∉ (handleF9 s env).2.1 ∧
      (handleF9 s env).1.clipboard = s.clipboard := by
    cases hb : s.recorder.buffer with
    | nil =>
      have hh : handleF9 s env
          = ({ s with recorder := (s.recorder.stop).2 }, [.stopRecording], true) := by
        simp [handleF9, h9, hw9, AudioRecorder.stop, hb]
      simp [hh]
    | cons x xs =>
      by_cases hsave : env.saveOk
      · rcases hdisj with hcontra | ⟨c, out, err, hex, hcl⟩
        · rw [hb] at hcontra
          cases hcontra
        · have hh : handleF9 s env
              = ({ s with recorder := (s.recorder.stop).2 },
                 [.stopRecording,
                  .saveWav "temp_input.wav" ((s.recorder.stop).2.save_to_file (x :: xs)),
                  .runWhisper (whisperInvocation s.transcriber env.current_dir "temp_input.wav")],
                 false) := by
            simp [handleF9, h9, hw9, AudioRecorder.stop, hb, hsave,
              Transcriber.transcribe, hex, hcl]
          simp [hh]
      · have hh : handleF9 s env
            = ({ s with recorder := (s.recorder.stop).2 },
               [.stopRecording,
                .saveWav "temp_input.wav" ((s.recorder.stop).2.save_to_file (x :: xs))],
               true) := by
          simp [handleF9, h9, hw9, AudioRecorder.stop, hb, hsave]
        simp [hh]
  refine ⟨?_, ?_, main.2.2⟩
  · intro t hmem
    simp only [loopIter] at hmem
    split at hmem
    · exact main.1 t hmem
    · rw [List.mem_append, List.mem_append] at hmem
      rcases hmem with (h1 | h2) | h3
      · exact main.1 t h1
      · exact (handleF10_effects_shape _ env).1 t h2
      · simp at h3
  · intro hmem
    simp only [loopIter] at hmem
    split at hmem
    · exact main.2.1 hmem
    · rw [List.mem_append, List.mem_append] at hmem
      rcases hmem with (h1 | h2) | h3
      · exact main.2.1 h1
      · exact (handleF10_effects_shape _ env).2.1 h2
      · simp at h3

/-- Witness for C9: a release edge with an empty capture buffer leaves the
clipboard alone and sends no paste keystroke. -/
theorem stt_empty_no_paste_witness :
    Effect.pasteKeys ∉
      (loopIter
        (LoopState.mk true false (AudioRecorder.mk true [] (some ⟨some 16000⟩) 16000)
          (Transcriber.mk "whisper-cli.exe" "ggml-large-v3-turbo.bin") "clip" none)
        (LoopEnv.mk false false "." true (fun _ => .completed true (some 0) "ok" "")
          none (fun _ => .running)
          ⟨"/tmp", "aplay", fun _ => .ok (), fun _ => .ok ⟨2⟩⟩)).2 :=
  ((stt_empty_no_paste
      (LoopState.mk true false (AudioRecorder.mk true [] (some ⟨some 16000⟩) 16000)
        (Transcriber.mk "whisper-cli.exe" "ggml-large-v3-turbo.bin") "clip" none)
      (LoopEnv.mk false false "." true (fun _ => .completed true (some 0) "ok" "")
        none (fun _ => .running)
        ⟨"/tmp", "aplay", fun _ => .ok (), fun _ => .ok ⟨2⟩⟩))
    rfl rfl (Or.inl rfl)).2.1

/-- C7: `Narrator::speak` on blank text errors without invoking the TTS tool;
on non-blank text it runs piper with the configured model path and the text
on standard input, waits for it, and then spawns the platform audio player on
the produced WAV file. -/
theorem speak_correct (n : Narrator) (w : SpeakWorld) (text : String) :
    (strTrim text = "" →
      (n.speak w text).1 = .error "No text to speak" ∧
      (n.speak w text).2.1 = n ∧ (n.speak w text).2.2 = []) ∧
    (strTrim text ≠ "" →
      (piperInvocation n.config (pathJoin w.tempDir "tts_output.wav") text).program
          = n.config.piper_path ∧
      (piperInvocation n.config (pathJoin w.tempDir "tts_output.wav") text).args
          = ["--model", n.config.model_path, "--output_file",
             pathJoin w.tempDir "tts_output.wav"] ∧
      (piperInvocation n.config (pathJoin w.tempDir "tts_output.wav") text).stdinData
          = some text ∧
      (playerInvocation w.playerCmd (pathJoin w.tempDir "tts_output.wav")).program
          = w.playerCmd ∧
      (playerInvocation w.playerCmd (pathJoin w.tempDir "tts_output.wav")).args
          = [pathJoin w.tempDir "tts_output.wav"] ∧
      (∀ p, w.runPiper (piperInvocation n.config (pathJoin w.tempDir "tts_output.wav") text)
          = .ok () →
        w.spawnPlayer (playerInvocation w.playerCmd (pathJoin w.tempDir "tts_output.wav"))
            = .ok p →
        (n.speak w text).1 = .ok () ∧
        (n.speak w text).2.2
          = (n.stop).2 ++
            [.runPiper (piperInvocation n.config (pathJoin w.tempDir "tts_output.wav") text),
             .spawnPlayer (playerInvocation w.playerCmd (pathJoin w.tempDir "tts_output.wav"))])) := by
  have hcfg : (n.stop).1.config = n.config := by
    cases h : n.current_process <;> simp [Narrator.stop, h]
  constructor
  · intro ht
    refine ⟨?_, ?_, ?_⟩ <;> simp [Narrator.speak, ht]
  · intro ht
    refine ⟨rfl, rfl, rfl, rfl, rfl, ?_⟩
    intro p hrp hsp
    constructor
    · simp only [Narrator.speak, if_neg ht, hcfg]
      simp only [hrp, hsp]
    · simp only [Narrator.speak, if_neg ht, hcfg]
      simp only [hrp, hsp]

/-- Witness for C7: a concrete narrator speaking `"hi"` with both subprocess
steps succeeding produces exactly the piper run followed by the player
spawn. -/
theorem speak_correct_witness :
    ((Narrator.mk ⟨"piper", "voice.onnx", 1⟩ none).speak
        ⟨"/tmp", "aplay", fun _ => .ok (), fun _ => .ok ⟨9⟩⟩ "hi").2.2
      = [.runPiper (piperInvocation ⟨"piper", "voice.onnx", 1⟩
            (pathJoin "/tmp" "tts_output.wav") "hi"),
         .spawnPlayer (playerInvocation "aplay" (pathJoin "/tmp" "tts_output.wav"))] := by
  have h := ((speak_correct (Narrator.mk ⟨"piper", "voice.onnx", 1⟩ none)
      ⟨"/tmp", "aplay", fun _ => .ok (), fun _ => .ok ⟨9⟩⟩ "hi").2
      (by decide) |>.2.2.2.2.2) ⟨9⟩ rfl rfl
  rw [h.2]
  rw [show ((Narrator.mk ⟨"piper", "voice.onnx", 1⟩ none).stop).2 = [] from rfl]
  rfl

/-- C8: the shared sample buffer is empty at every recording boundary: a
successful `start` clears it before the stream runs, `stop` removes and
returns the whole buffer leaving it empty, and therefore the samples a
recording returns are exactly the batches fed by the stream callback since
that recording's `start`, never samples captured earlier. -/
theorem buffer_empty_at_boundaries :
    (∀ r r2 : AudioRecorder, r.start = .ok r2 →
      r2.buffer = [] ∧ r2.streaming = true) ∧
    (∀ r : AudioRecorder, (r.stop).1 = r.buffer ∧ (r.stop).2.buffer = []) ∧
    (∀ (r r2 : AudioRecorder) (fs : List (List ℚ)), r.start = .ok r2 →
      ((applyFeeds r2 fs).stop).1 = fs.flatten) := by
  have hstart : ∀ r r2 : AudioRecorder, r.start = .ok r2 →
      r2.buffer = [] ∧ r2.streaming = true := by
    intro r r2 h
    rw [AudioRecorder.start] at h
    cases hd : r.device with
    | none => rw [hd] at h; cases h
    | some d =>
      rw [hd] at h
      cases hc : d.configRate with
      | none => simp [hc] at h
      | some rate =>
        simp [hc] at h
        subst h
        exact ⟨rfl, rfl⟩
  refine ⟨hstart, fun r => ⟨rfl, rfl⟩, ?_⟩
  intro r r2 fs h
  have h2 := hstart r r2 h
  have h3 := applyFeeds_buffer fs r2 h2.2
  rw [show ((applyFeeds r2 fs).stop).1 = (applyFeeds r2 fs).buffer from rfl,
      h3.1, h2.1, List.nil_append]

/-- Witness for C8: starting a recorder whose stale buffer is nonempty, then
feeding two batches, makes `stop` return exactly those batches. -/
theorem buffer_empty_at_boundaries_witness :
    ((applyFeeds
        { streaming := true, buffer := [], device := some ⟨some 16000⟩,
          sample_rate := 16000 }
        [[1], [2, 3]]).stop).1 = [1, 2, 3] := by
  have h := buffer_empty_at_boundaries.2.2
    (AudioRecorder.mk false [7] (some ⟨some 16000⟩) 44100)
    { streaming := true, buffer := [], device := some ⟨some 16000⟩,
      sample_rate := 16000 }
    [[1], [2, 3]] rfl
  rw [h]
  rfl

/-- C10 (code bug): at `text = "éé"`, `max_len = 1` the byte index 1 falls
inside the two-byte character `é`, so the slice `&text[..1]` taken by
`truncate_for_display` is not on a character boundary and the Rust code
panics (modelled as `none`); the function does not return normally on every
input. -/
theorem truncate_for_display_panics : truncate_for_display "éé" 1 = none := by decide


/-- C2 (amended): when the iteration is not cut short by the F9 block's
`continue`, an F10 press edge with a configured narrator either stops the
running playback — the tracked child is killed, the handle is cleared, and no
piper run is started — or, when nothing is playing, captures the selection
via the clipboard and, if its trimmed text is non-blank, runs piper on it. -/
theorem tts_hotkey_cancel_or_speak (s : LoopState) (env : LoopEnv) (n : Narrator)
    (hn : s.narrator = some n)
    (hcont : f9Continues s env = false)
    (h10 : env.isF10 = true) (hw10 : s.wasF10 = false) :
    ((n.is_playing env.tryWait).1 = true →
      (∀ inv, Effect.runPiper inv ∉ (loopIter s env).2) ∧
      (∃ n2, (loopIter s env).1.narrator = some n2 ∧ n2.current_process = none) ∧
      (∀ c, n.current_process = some c → Effect.narrKill c.id ∈ (loopIter s env).2)) ∧
    ((n.is_playing env.tryWait).1 = false →
      Effect.copyKeys ∈ (loopIter s env).2 ∧
      (strTrim (get_selected_text (handleF9 s env).1.clipboard env.copied).2.1 ≠ "" →
        Effect.runPiper
          (piperInvocation n.config (pathJoin env.speakW.tempDir "tts_output.wav")
            (get_selected_text (handleF9 s env).1.clipboard env.copied).2.1)
          ∈ (loopIter s env).2)) := by
  have hpre := handleF9_preserves s env
  have hn1 : (handleF9 s env).1.narrator = some n := hpre.2.2.1.trans hn
  have hw1 : (handleF9 s env).1.wasF10 = false := hpre.2.1.trans hw10
  have hsplit := loopIter_split s env hcont
  constructor
  · intro hp
    have hiq := is_playing_true_eq n env.tryWait hp
    have hh10 : handleF10 (handleF9 s env).1 env
        = ({ (handleF9 s env).1 with narrator := some (n.stop).1 }, (n.stop).2) := by
      simp [handleF10, h10, hw1, hn1, hp, hiq.1]
    refine ⟨?_, ?_, ?_⟩
    · intro inv hmem
      rw [hsplit.2] at hmem
      rw [List.mem_append, List.mem_append] at hmem
      rcases hmem with (h1 | h2) | h3
      · exact (handleF9_effects_shape s env).1 inv h1
      · rw [hh10] at h2
        rcases mem_stop_effects n _ h2 with ⟨i, hi | hi⟩ <;> exact Effect.noConfusion hi
      · simp at h3
    · refine ⟨(n.stop).1, ?_, ?_⟩
      · rw [hsplit.1, hh10]
      · cases hcp : n.current_process <;> simp [Narrator.stop, hcp]
    · intro c hc
      rw [hsplit.2]
      have hst : (n.stop).2 = [.narrKill c.id, .narrWait c.id] := by
        simp [Narrator.stop, hc]
      rw [List.mem_append]
      left
      rw [List.mem_append]
      right
      rw [hh10, hst]
      simp
  · intro hp
    have hcfg : ((n.is_playing env.tryWait).2).config = n.config :=
      is_playing_snd_config n env.tryWait
    constructor
    · rw [hsplit.2]
      rw [List.mem_append]
      left
      rw [List.mem_append]
      right
      by_cases ht0 : strTrim (get_selected_text (handleF9 s env).1.clipboard env.copied).2.1 = ""
      · have hh10 : (handleF10 (handleF9 s env).1 env).2 = [Effect.copyKeys] := by
          simp [handleF10, h10, hw1, hn1, hp, get_selected_text] at ht0 ⊢
          rw [if_pos ht0]
        rw [hh10]
        simp
      · have hh10 : (handleF10 (handleF9 s env).1 env).2
            = Effect.copyKeys :: ((n.is_playing env.tryWait).2.speak env.speakW
                (get_selected_text (handleF9 s env).1.clipboard env.copied).2.1).2.2 := by
          simp [handleF10, h10, hw1, hn1, hp, get_selected_text] at ht0 ⊢
          rw [if_neg ht0]
        rw [hh10]
        exact List.mem_cons_self _ _
    · intro ht
      have hmem := speak_runPiper_mem (n.is_playing env.tryWait).2 env.speakW
        (get_selected_text (handleF9 s env).1.clipboard env.copied).2.1 ht
      rw [hcfg] at hmem
      have hh10 : (handleF10 (handleF9 s env).1 env).2
          = Effect.copyKeys :: ((n.is_playing env.tryWait).2.speak env.speakW
              (get_selected_text (handleF9 s env).1.clipboard env.copied).2.1).2.2 := by
        have ht0 := ht
        simp [handleF10, h10, hw1, hn1, hp, get_selected_text] at ht0 ⊢
        rw [if_neg ht0]
      rw [hsplit.2]
      rw [List.mem_append]
      left
      rw [List.mem_append]
      right
      rw [hh10]
      exact List.mem_cons_of_mem _ hmem

/-- Concrete loop state for the C2 and C6 counterexamples: F9 was down on the
previous iteration, the capture buffer is empty, and the narrator is playing
as child 1. -/
def cexState : LoopState :=
  { wasF9 := true, wasF10 := false,
    recorder := { streaming := true, buffer := [],
                  device := some ⟨some 16000⟩, sample_rate := 16000 },
    transcriber := { executable_path := "whisper-cli.exe",
                     model_path := "ggml-large-v3-turbo.bin" },
    clipboard := "",
    narrator := some { config := ⟨"piper", "voice.onnx", 1⟩,
                       current_process := some ⟨1⟩ } }

/-- Concrete environment for the C2 and C6 counterexamples: F9 released, F10
pressed, child 1 still running. -/
def cexEnv : LoopEnv :=
  { isF9 := false, isF10 := true, current_dir := ".", saveOk := true,
    whisperExec := fun _ => .completed true (some 0) "" "",
    copied := none, tryWait := fun _ => .running,
    speakW := { tempDir := "/tmp", playerCmd := "aplay",
                runPiper := fun _ => .ok (), spawnPlayer := fun _ => .ok ⟨2⟩ } }

/-- C2 counterexample: with playback in progress (tracked child 1 running)
and an F10 press edge, an iteration whose F9 release captured no audio hits
`continue`: the F10 block is skipped, no kill is issued and the tracked
handle survives, so the playback is not stopped despite the press edge. -/
theorem tts_press_edge_not_stopped :
    cexEnv.isF10 = true ∧ cexState.wasF10 = false ∧
    ((Narrator.mk ⟨"piper", "voice.onnx", 1⟩ (some ⟨1⟩)).is_playing cexEnv.tryWait).1
      = true ∧
    (loopIter cexState cexEnv).2 = [.stopRecording] ∧
    (loopIter cexState cexEnv).1.narrator
      = some (Narrator.mk ⟨"piper", "voice.onnx", 1⟩ (some ⟨1⟩)) := by
  refine ⟨rfl, rfl, rfl, ?_, ?_⟩ <;> decide

/-- Witness for the amended C2 at a concrete playing scenario without a
`continue`: the press edge kills the tracked child. -/
theorem tts_hotkey_cancel_or_speak_witness :
    Effect.narrKill 1 ∈ (loopIter { cexState with wasF9 := false } cexEnv).2 :=
  (((tts_hotkey_cancel_or_speak { cexState with wasF9 := false } cexEnv
      (Narrator.mk ⟨"piper", "voice.onnx", 1⟩ (some ⟨1⟩)) rfl (by decide) rfl rfl).1
    (by decide)).2.2 ⟨1⟩ rfl)

/-- C6 (amended): the loop's stored F9 state always equals the previous
iteration's sample, and the stored F10 state does except across a `continue`
iteration, where it is stale; an F9 action triggers only when the F9 sample
changed; an F10 action triggers only on the guard against the stored state,
which is the previous sample when the previous iteration ran to completion;
a steadily held key never retriggers; and the 20 ms sleep ends every
iteration except those cut short by `continue`. -/
theorem edge_triggering (s : LoopState) (e0 e1 : LoopEnv) :
    ((loopIter s e0).1.wasF9 = e0.isF9) ∧
    (f9Continues s e0 = false → (loopIter s e0).1.wasF10 = e0.isF10) ∧
    (f9Continues s e0 = true → (loopIter s e0).1.wasF10 = s.wasF10) ∧
    (f9Edge (loopIter s e0).1 e1 = true → e1.isF9 ≠ e0.isF9) ∧
    (f9Continues s e0 = false → f10Fired (loopIter s e0).1 e1 = true →
      e1.isF10 = true ∧ e0.isF10 = false) ∧
    (f10Fired s e0 = true → e1.isF10 = true → f10Fired (loopIter s e0).1 e1 = false) ∧
    (Effect.sleepMs 20 ∈ (loopIter s e0).2 ↔ f9Continues s e0 = false) := by
  have hw9 : (loopIter s e0).1.wasF9 = e0.isF9 := by
    simp only [loopIter]
    split <;> rfl
  have hw10t : f9Continues s e0 = true → (loopIter s e0).1.wasF10 = s.wasF10 := by
    intro hc
    simp only [loopIter, f9Continues] at hc ⊢
    rw [if_pos hc]
    exact (handleF9_preserves s e0).2.1
  have hw10f : f9Continues s e0 = false → (loopIter s e0).1.wasF10 = e0.isF10 := by
    intro hc
    simp only [loopIter, f9Continues] at hc ⊢
    rw [if_neg (by simp [hc])]
  refine ⟨hw9, hw10f, hw10t, ?_, ?_, ?_, ?_⟩
  · intro hE
    rw [f9Edge, hw9] at hE
    exact fun habs => by simp [habs] at hE
  · intro hc hf
    rw [f10Fired, Bool.and_eq_true, Bool.and_eq_true] at hf
    refine ⟨hf.2.1, ?_⟩
    have := hf.2.2
    rw [hw10f hc] at this
    simpa using this
  · intro hf he1
    rw [f10Fired, Bool.and_eq_true, Bool.and_eq_true] at hf
    have hc : f9Continues s e0 = false := by
      have := hf.1
      cases hcc : f9Continues s e0
      · rfl
      · rw [hcc] at this
        simp at this
    have h0 : e0.isF10 = true := hf.2.1
    rw [f10Fired, hw10f hc, h0]
    simp
  · constructor
    · intro hmem
      cases hcc : f9Continues s e0 with
      | false => rfl
      | true =>
        simp only [loopIter, f9Continues] at hmem hcc
        rw [if_pos hcc] at hmem
        exact absurd hmem (handleF9_effects_shape s e0).2.2.1
    · intro hc
      rw [(loopIter_split s e0 hc).2]
      simp

/-- C6 counterexample: two consecutive iterations both sample F10 as pressed
(no press edge between them), yet the second iteration fires the F10 action
and kills child 1, because the first iteration hit `continue` (empty capture
buffer) and left the stored F10 state stale; the first iteration also skips
the 20 ms sleep. -/
theorem f10_fires_without_edge :
    cexEnv.isF10 = true ∧
    f10Fired (loopIter cexState cexEnv).1 cexEnv = true ∧
    Effect.narrKill 1 ∈ (loopIter (loopIter cexState cexEnv).1 cexEnv).2 ∧
    Effect.sleepMs 20 ∉ (loopIter cexState cexEnv).2 := by
  refine ⟨rfl, ?_, ?_, ?_⟩ <;> decide

/-- Witness for the amended C6 at concrete inputs: a fired F10 action after a
completed iteration implies the sample actually changed. -/
theorem edge_triggering_witness :
    cexEnv.isF10 = true ∧ ({ cexEnv with isF10 := false } : LoopEnv).isF10 = false :=
  (edge_triggering { cexState with wasF9 := false }
    { cexEnv with isF10 := false } cexEnv).2.2.2.2.1 (by decide) (by decide)

end LocalTTS
